import Mathlib

/-
Verification of the change-detection / snapshot-diff engine of the
pharmaceutical news scraper repository.

The development shallowly embeds the four monitor implementations that the
specification covers:

  * `PharmaScraper`  — src/scrapers/pharmaceutical_online_scraper.py
                       (cumulative seen-link tracker: `_load_snapshot`,
                       `_save_snapshot`, `fetch_news`)
  * `ICH`            — src/ich_monitor.py (`extract_info`,
                       `compare_snapshots`, `check_category`)
  * `EudraLex`       — src/src/eudralex_monitor.py (`extract_documents`,
                       `compare_snapshots`)
  * `HtmlMonitor`    — src/src/html_change_monitor.py (`compare_content`)

plus a small model of the file-write behaviour of the `save_snapshot`
routines (`FileWrite`).

Machine-level details follow the Python sources: hashing is a full
executable SHA-256 over the UTF-8 bytes of the serialized content (the
sources only ever use ASCII payloads, for which the UTF-8 encoding is the
identity on code points); `json.dumps(..., sort_keys=True)` is embedded as
a canonical serializer over a small JSON value type; Python `set`s become
`Finset String`.
-/

set_option maxRecDepth 1000000

namespace SHA256

/-- Lower 32 bits mask; all word arithmetic in SHA-256 is modulo 2^32. -/
def mask32 : Nat := 4294967295

/-- Rotate a 32-bit word right by `n` bits. -/
def rotr (n x : Nat) : Nat := ((x >>> n) ||| (x <<< (32 - n))) &&& mask32

/-- The first big-sigma function of the compression round. -/
def sigBig0 (x : Nat) : Nat := rotr 2 x ^^^ rotr 13 x ^^^ rotr 22 x

/-- The second big-sigma function of the compression round. -/
def sigBig1 (x : Nat) : Nat := rotr 6 x ^^^ rotr 11 x ^^^ rotr 25 x

/-- The first small-sigma function of the message schedule. -/
def sigSmall0 (x : Nat) : Nat := rotr 7 x ^^^ rotr 18 x ^^^ (x >>> 3)

/-- The second small-sigma function of the message schedule. -/
def sigSmall1 (x : Nat) : Nat := rotr 17 x ^^^ rotr 19 x ^^^ (x >>> 10)

/-- The choice function of the compression round. -/
def chooseFn (x y z : Nat) : Nat := (x &&& y) ^^^ ((x ^^^ mask32) &&& z)

/-- The majority function of the compression round. -/
def majorityFn (x y z : Nat) : Nat := (x &&& y) ^^^ (x &&& z) ^^^ (y &&& z)

/-- The 64 round constants of FIPS 180-4 (fractional parts of the cube
roots of the first 64 primes), in decimal. -/
def roundConsts : List Nat :=
  [1116352408, 1899447441, 3049323471, 3921009573, 961987163,
   1508970993, 2453635748, 2870763221, 3624381080, 310598401,
   607225278, 1426881987, 1925078388, 2162078206, 2614888103,
   3248222580, 3835390401, 4022224774, 264347078, 604807628,
   770255983, 1249150122, 1555081692, 1996064986, 2554220882,
   2821834349, 2952996808, 3210313671, 3336571891, 3584528711,
   113926993, 338241895, 666307205, 773529912, 1294757372,
   1396182291, 1695183700, 1986661051, 2177026350, 2456956037,
   2730485921, 2820302411, 3259730800, 3345764771, 3516065817,
   3600352804, 4094571909, 275423344, 430227734, 506948616,
   659060556, 883997877, 958139571, 1322822218, 1537002063,
   1747873779, 1955562222, 2024104815, 2227730452, 2361852424,
   2428436474, 2756734187, 3204031479, 3329325298]

/-- The eight initial hash words of FIPS 180-4 (fractional parts of the
square roots of the first 8 primes), in decimal. -/
def initHash : List Nat :=
  [1779033703, 3144134277, 1013904242, 2773480762, 1359893119,
   2600822924, 528734635, 1541459225]

/-- Big-endian 8-byte encoding of a 64-bit length. -/
def beBytes8 (n : Nat) : List Nat :=
  [(n >>> 56) &&& 255, (n >>> 48) &&& 255, (n >>> 40) &&& 255, (n >>> 32) &&& 255,
   (n >>> 24) &&& 255, (n >>> 16) &&& 255, (n >>> 8) &&& 255, n &&& 255]

/-- SHA-256 padding: append 0x80, zero bytes up to 56 mod 64, then the
bit length as a big-endian 64-bit integer. -/
def padBytes (msg : List Nat) : List Nat :=
  let z := (119 - msg.length % 64) % 64
  msg ++ (128 :: List.replicate z 0) ++ beBytes8 (msg.length * 8)

/-- Combine bytes, four at a time big-endian, into 32-bit words. -/
def toWords : List Nat → List Nat
  | b0 :: b1 :: b2 :: b3 :: rest =>
    ((((b0 <<< 8) ||| b1) <<< 8 ||| b2) <<< 8 ||| b3) :: toWords rest
  | _ => []

/-- Extend the 16 message-schedule words of one block to 64 words. -/
def extendW (w0 : Array Nat) : Array Nat :=
  (List.range 48).foldl
    (fun w _ =>
      let t := w.size
      w.push ((w.getD (t - 16) 0 + sigSmall0 (w.getD (t - 15) 0) +
               w.getD (t - 7) 0 + sigSmall1 (w.getD (t - 2) 0)) &&& mask32))
    w0

/-- One SHA-256 compression round on the eight-word working state. -/
def round (w : Array Nat) (s : List Nat) (i : Nat) : List Nat :=
  match s with
  | [a, b, c, d, e, f, g, h] =>
    let t1 := (h + sigBig1 e + chooseFn e f g + roundConsts.getD i 0 + w.getD i 0) &&& mask32
    let t2 := (sigBig0 a + majorityFn a b c) &&& mask32
    [(t1 + t2) &&& mask32, a, b, c, (d + t1) &&& mask32, e, f, g]
  | other => other

/-- Compress one 64-byte block into the running hash state. -/
def compressBlock (h : List Nat) (block : List Nat) : List Nat :=
  let w := extendW (Array.mk (toWords block))
  let fin := (List.range 64).foldl (round w) h
  List.zipWith (fun x y => (x + y) &&& mask32) h fin

/-- Split a padded byte list into its 64-byte blocks. -/
def blocksOf (l : List Nat) : List (List Nat) :=
  (List.range (l.length / 64)).map (fun i => (l.drop (64 * i)).take 64)

/-- SHA-256 digest of a byte list as eight 32-bit words. -/
def sha256Words (msg : List Nat) : List Nat :=
  (blocksOf (padBytes msg)).foldl compressBlock initHash

/-- Lowercase hex digit for a 4-bit value. -/
def hexChar (n : Nat) : Char := "0123456789abcdef".data.getD n 'x'

/-- Lowercase 8-hex-digit rendering of one 32-bit word. -/
def word32Hex (n : Nat) : String :=
  String.mk ((List.range 8).map (fun i => hexChar ((n >>> (28 - 4 * i)) &&& 15)))

end SHA256

/-- Embedding of `hashlib.sha256(content_str.encode()).hexdigest()`.  The
Python sources only hash ASCII text (JSON serialized with the default
`ensure_ascii=True`), for which UTF-8 encoding is the identity on code
points, so the byte sequence is the list of character codes. -/
def sha256hex (s : String) : String :=
  String.join ((SHA256.sha256Words (s.data.map Char.toNat)).map SHA256.word32Hex)

namespace Canon

/-- JSON values, covering the shapes the monitors serialize (API
responses and extracted link records). -/
inductive Json where
  | str (s : String)
  | num (n : Int)
  | bool (b : Bool)
  | null
  | arr (elems : List Json)
  | obj (fields : List (String × Json))

/-- JSON string escaping for the quote and backslash characters; the
payloads in the sources and in this development contain no other
characters that `json.dumps` escapes. -/
def escapeString (s : String) : String :=
  String.join (s.data.map (fun c =>
    if c = Char.ofNat 34 then "\\\"" else if c = Char.ofNat 92 then "\\\\" else String.singleton c))

instance : DecidableRel (fun (a b : String × Json) => a.1 ≤ b.1) :=
  fun a b => inferInstanceAs (Decidable (a.1 ≤ b.1))

mutual

/-- Recursively sort every object's fields by key.  Together with
`dumps` below this embeds `json.dumps(x, sort_keys=True)`: Python sorts
keys by code-point order, which is `String` order on the ASCII payloads
used here. -/
def sortJson : Json → Json
  | .str s => .str s
  | .num n => .num n
  | .bool b => .bool b
  | .null => .null
  | .arr es => .arr (sortJsonList es)
  | .obj fs => .obj (List.insertionSort (fun a b => a.1 ≤ b.1) (sortJsonFields fs))

/-- Sort the elements of a JSON array (element order is preserved;
`sort_keys` only reorders object keys). -/
def sortJsonList : List Json → List Json
  | [] => []
  | j :: js => sortJson j :: sortJsonList js

/-- Sort the values inside each field of a JSON object. -/
def sortJsonFields : List (String × Json) → List (String × Json)
  | [] => []
  | (k, v) :: fs => (k, sortJson v) :: sortJsonFields fs

end

mutual

/-- Serialization matching `json.dumps` with its default separators
`", "` and `": "` (no indent).  Apply it to `sortJson x` to model
`json.dumps(x, sort_keys=True)`. -/
def dumps : Json → String
  | .str s => "\"" ++ escapeString s ++ "\""
  | .num n => toString n
  | .bool b => if b then "true" else "false"
  | .null => "null"
  | .arr es => "[" ++ String.intercalate ", " (dumpsList es) ++ "]"
  | .obj fs => "\x7b" ++ String.intercalate ", " (dumpsFields fs) ++ "\x7d"

/-- Serialize the elements of a JSON array. -/
def dumpsList : List Json → List String
  | [] => []
  | j :: js => dumps j :: dumpsList js

/-- Serialize the fields of a JSON object. -/
def dumpsFields : List (String × Json) → List String
  | [] => []
  | (k, v) :: fs => ("\"" ++ escapeString k ++ "\": " ++ dumps v) :: dumpsFields fs

end

/-- The canonical serialization used for fingerprinting:
`json.dumps(x, sort_keys=True)`. -/
def dumpsSorted (j : Json) : String := dumps (sortJson j)

end Canon

namespace PharmaScraper

/-- Outcome of `_parse_article` on one link inside the `fetch_news` loop
(src/scrapers/pharmaceutical_online_scraper.py:291-307):
`parsed` — a `NewsArticle` was returned; `rejected` — `_parse_article`
returned `None` (non-200 response, missing title, or the keyword filter
at line 367); `errored` — an exception escaped `_parse_article` and was
caught by the `except` at line 305, which logs and continues. -/
inductive ParseOutcome where
  | parsed (title : String)
  | rejected
  | errored

/-- The fields of a returned `NewsArticle` that the tracker semantics
observe: the article's title and its link (the dedup id). -/
structure NewsArticle where
  title : String
  link : String
deriving DecidableEq

/-- The persisted snapshot file `article_links.json` written by
`_save_snapshot`: `{"updated": now, "count": len, "links": [...]}`
(pharmaceutical_online_scraper.py:122-126).  Timestamps are abstracted
to a `Nat` clock value. -/
structure SnapshotFile where
  updated : Nat
  count : Nat
  links : Finset String
deriving DecidableEq

/-- Embedding of `_save_snapshot(current_links, previous_links)`
(pharmaceutical_online_scraper.py:107-129): the persisted link set is
`current | previous` when `previous_links` is truthy (a non-`None`,
non-empty set — Python's `if previous_links:`), and `current` alone
otherwise. -/
def saveSnapshot (now : Nat) (current : Finset String) (previous : Option (Finset String)) :
    SnapshotFile :=
  match previous with
  | none => { updated := now, count := current.card, links := current }
  | some p =>
    if p = ∅ then { updated := now, count := current.card, links := current }
    else { updated := now, count := (current ∪ p).card, links := current ∪ p }

/-- Outcome of fetching one hub listing page inside
`_collect_hub_articles` (pharmaceutical_online_scraper.py:159-235): a
page either yields a list of recent article links, or its request
raises / returns a non-200 status, which is caught in the loop (lines
172-174 and 233-235) so the page contributes nothing and the scan
continues with the remaining hubs. -/
inductive PageFetch where
  | failed
  | page (links : List String)

/-- Embedding of `_collect_hub_articles`: the concatenated links found
on the successfully fetched hub pages (the keys of the `articles`
dict).  A run in which every request fails produces the empty listing —
indistinguishable, to the caller, from a day with no recent articles.
(Date filtering and pagination are part of how each page's link list is
produced and are not modelled separately.) -/
def collectHubArticles (pages : List PageFetch) : List String :=
  pages.foldl
    (fun acc p => match p with
      | .failed => acc
      | .page ls => acc ++ ls)
    []

/-- Embedding of the per-link detail loop of `fetch_news` (lines
291-307): links whose parse succeeds become articles, rejected and
errored links are skipped. -/
def runParse (parse : String → ParseOutcome) (links : List String) : List NewsArticle :=
  links.filterMap (fun l =>
    match parse l with
    | .parsed t => some { title := t, link := l }
    | .rejected => none
    | .errored => none)

/-- The observable outcome of one `fetch_news` run: the returned
articles, the computed `new_links = current_links - previous_links`,
the first-run flag, and the snapshot file written by `_save_snapshot`
(every branch of `fetch_news` calls `_save_snapshot`). -/
structure RunResult where
  returned : List NewsArticle
  newLinks : Finset String
  isFirstRun : Bool
  savedFile : SnapshotFile

/-- Embedding of `fetch_news` (pharmaceutical_online_scraper.py:240-313)
given the loaded previous snapshot, the current scrape's link listing
(`recent_articles.keys()` — `current_links` is its set), the per-link
parse outcomes, and the current clock value.  `is_first_run` is
`len(previous_links) == 0` (line 258).  Python iterates `new_links` (a
set) in unspecified order; the loop is modelled as visiting the current
listing's distinct new links in listing order, which no stated property
depends on. -/
def fetchNews (previous : Finset String) (current : List String)
    (parse : String → ParseOutcome) (now : Nat) : RunResult :=
  if previous.card = 0 then
    { returned := [], newLinks := current.toFinset \ previous, isFirstRun := true,
      savedFile := saveSnapshot now current.toFinset none }
  else if current.toFinset \ previous = ∅ then
    { returned := [], newLinks := current.toFinset \ previous, isFirstRun := false,
      savedFile := saveSnapshot now current.toFinset (some previous) }
  else
    { returned := runParse parse (current.dedup.filter (fun l => decide (l ∉ previous))),
      newLinks := current.toFinset \ previous, isFirstRun := false,
      savedFile := saveSnapshot now current.toFinset (some previous) }

/-- One run's inputs, for stating properties of arbitrary sequences of
`fetch_news` runs. -/
structure RunInput where
  current : List String
  parse : String → ParseOutcome
  now : Nat

/-- The persisted seen-link set after a sequence of `fetch_news` runs,
each run loading the set the previous run saved. -/
def foldState (s : Finset String) (runs : List RunInput) : Finset String :=
  runs.foldl (fun st r => (fetchNews st r.current r.parse r.now).savedFile.links) s

/-- The parsed content of the snapshot file as `_load_snapshot` sees it
(pharmaceutical_online_scraper.py:93-105): the file may be absent, may
exist but fail to open or parse (the `except` at line 103), or may
parse to a JSON object whose `links` key can itself be missing
(`data.get("links", [])`). -/
inductive StoredFile where
  | absent
  | unreadable
  | stored (links : Option (List String))
deriving DecidableEq

/-- Embedding of `_load_snapshot`: the empty set is returned when the
file is absent, but also when it exists and fails to parse, and when it
parses without a `links` key. -/
def loadSnapshot : StoredFile → Finset String
  | .absent => ∅
  | .unreadable => ∅
  | .stored links => (links.getD []).toFinset

end PharmaScraper

namespace ICH

/-- Python `"%+d" % z` as used in `f"Size diff: {size_diff:+d} bytes"`
(ich_monitor.py:166): an explicit sign also for positive values. -/
def fmtSignedInt (z : Int) : String :=
  if 0 ≤ z then "+" ++ toString z else toString z

/-- Characters excluded by the character class `[^\s"\'<>]` of the PDF
link pattern (ich_monitor.py:99): whitespace, quotes and angle
brackets.  `Char.ofNat 39` is the apostrophe. -/
def isUrlChar (c : Char) : Bool :=
  ¬ (c = ' ' ∨ c = '\t' ∨ c = '\n' ∨ c = '\r' ∨ c = Char.ofNat 12 ∨ c = Char.ofNat 11 ∨
     c = Char.ofNat 34 ∨ c = Char.ofNat 39 ∨ c = '<' ∨ c = '>')

/-- Matcher for the guideline-id pattern `[C]\d+[A-Z]?` with
`re.IGNORECASE` (ich_monitor.py:94), scanned left to right without
overlaps as `re.findall` does: the category initial (either case), a
maximal digit run, then greedily one optional letter.  The first
argument is recursion fuel, at least the length of the remaining
input. -/
def findGuidelineCodes (c0 : Char) : Nat → List Char → List String
  | 0, _ => []
  | _, [] => []
  | fuel + 1, c :: rest =>
    if c.toUpper = c0.toUpper then
      match rest.takeWhile Char.isDigit, rest.dropWhile Char.isDigit with
      | [], _ => findGuidelineCodes c0 fuel rest
      | ds, rest2 =>
        match rest2 with
        | [] => [String.mk (c :: ds)]
        | c2 :: rest3 =>
          if c2.isAlpha then String.mk (c :: ds ++ [c2]) :: findGuidelineCodes c0 fuel rest3
          else String.mk (c :: ds) :: findGuidelineCodes c0 fuel rest2
    else findGuidelineCodes c0 fuel rest

/-- End position of a greedy match of `[^\s"\'<>]+\.pdf` within `run`:
the largest `i` such that the prefix of length `i` ends in `".pdf"`
preceded by at least one URL character (regex backtracking picks the
last viable `".pdf"`). -/
def lastDotPdfEnd (run : List Char) : Option Nat :=
  ((List.range (run.length + 1)).filter
    (fun i => decide (5 ≤ i) && decide ((run.take i).drop (i - 4) = ['.', 'p', 'd', 'f']))).getLast?

/-- Try to match `https?://[^\s"\'<>]+\.pdf` at the start of `l`,
returning the matched characters and the rest of the input. -/
def matchPdfAt (l : List Char) : Option (List Char × List Char) :=
  let schemeRest : Option (List Char × List Char) :=
    if l.take 4 = ['h', 't', 't', 'p'] then
      let r := l.drop 4
      if r.take 1 = ['s'] then
        if (r.drop 1).take 3 = [':', '/', '/'] then some (l.take 8, (r.drop 1).drop 3)
        else none
      else if r.take 3 = [':', '/', '/'] then some (l.take 7, r.drop 3)
      else none
    else none
  match schemeRest with
  | none => none
  | some (scheme, rest) =>
    let run := rest.takeWhile isUrlChar
    match lastDotPdfEnd run with
    | none => none
    | some i => some (scheme ++ run.take i, rest.drop i)

/-- Matcher for the PDF link pattern `https?://[^\s"\'<>]+\.pdf`
(ich_monitor.py:99), scanned left to right without overlaps.  The first
argument is recursion fuel, at least the length of the remaining
input. -/
def findPdfUrls : Nat → List Char → List String
  | 0, _ => []
  | _, [] => []
  | fuel + 1, c :: rest =>
    match matchPdfAt (c :: rest) with
    | some (m, rest2) => String.mk m :: findPdfUrls fuel rest2
    | none => findPdfUrls fuel rest

/-- The snapshot dictionary built by `extract_info` and persisted by
`save_snapshot` (ich_monitor.py:76-103). -/
structure Snapshot where
  category : String
  timestamp : String
  content_hash : String
  guidelines_found : List String
  links_found : List String
  response_size : Nat
deriving DecidableEq

/-- Embedding of `extract_info(api_data, category)` (ich_monitor.py:
76-103): the whole API response is serialized with
`json.dumps(api_data, sort_keys=True)` and hashed with SHA-256;
guideline ids and PDF links are extracted from the serialized string by
the two regex scanners.  `guidelines_found` is `sorted(list(set(..)))`
exactly as in the source; for `links_found` Python materializes
`list(set(pdfs))[:50]` in unspecified set-iteration order, modelled
here as sorted order before the 50-element truncation. -/
def extractInfo (data : Canon.Json) (category now : String) : Snapshot :=
  let contentStr := Canon.dumpsSorted data
  let c0 := category.data.headD 'q'
  { category := category
    timestamp := now
    content_hash := sha256hex contentStr
    guidelines_found :=
      List.insertionSort (· ≤ ·) (findGuidelineCodes c0 (contentStr.length + 1) contentStr.data).dedup
    links_found :=
      (List.insertionSort (· ≤ ·) (findPdfUrls (contentStr.length + 1) contentStr.data).dedup).take 50
    response_size := contentStr.length }

/-- The change dictionary built by `compare_snapshots`
(ich_monitor.py:120-170).  The guideline-diff keys are only inserted in
the non-short-circuit path, hence the `Option`; `new_links` and
`removed_links` are `list(set difference)` values, modelled as the
sets.  -/
structure Changes where
  has_changes : Bool
  old_timestamp : String
  new_timestamp : String
  new_links : Finset String
  removed_links : Finset String
  new_guidelines : Option (Finset String)
  removed_guidelines : Option (Finset String)
  summary : String
deriving DecidableEq

/-- Embedding of `compare_snapshots(old, new)` (ich_monitor.py:120-170):
equal `content_hash` short-circuits to the initialized no-change record;
otherwise the facet sets are diffed and the one-line summary is built
from the non-empty categories. -/
def compareSnapshots (old new : Snapshot) : Changes :=
  if old.content_hash = new.content_hash then
    { has_changes := false, old_timestamp := old.timestamp, new_timestamp := new.timestamp,
      new_links := ∅, removed_links := ∅, new_guidelines := none, removed_guidelines := none,
      summary := "No changes detected" }
  else
    let oldL := old.links_found.toFinset
    let newL := new.links_found.toFinset
    let oldG := old.guidelines_found.toFinset
    let newG := new.guidelines_found.toFinset
    let addedL := newL \ oldL
    let removedL := oldL \ newL
    let addedG := newG \ oldG
    let removedG := oldG \ newG
    let sizeDiff : Int := (new.response_size : Int) - (old.response_size : Int)
    let parts :=
      (if addedL ≠ ∅ then [toString addedL.card ++ " new PDFs"] else []) ++
      (if removedL ≠ ∅ then [toString removedL.card ++ " removed PDFs"] else []) ++
      (if addedG ≠ ∅ then ["New: " ++ String.intercalate ", " (Finset.sort (· ≤ ·) addedG)] else []) ++
      (if sizeDiff ≠ 0 then ["Size diff: " ++ fmtSignedInt sizeDiff ++ " bytes"] else [])
    { has_changes := true, old_timestamp := old.timestamp, new_timestamp := new.timestamp,
      new_links := addedL, removed_links := removedL,
      new_guidelines := some addedG, removed_guidelines := some removedG,
      summary := if parts = [] then "Content modified" else String.intercalate ", " parts }

/-- The dictionary returned by `check_category` (ich_monitor.py:
172-214).  The `**changes` splat of the checked path is modelled by the
`changes` field together with the lifted `has_changes`. -/
structure CheckResult where
  category : String
  status : String
  error : Option String
  message : Option String
  guidelines_count : Option Nat
  links_count : Option Nat
  has_changes : Bool
  changes : Option Changes
deriving DecidableEq

/-- Embedding of `check_category` (ich_monitor.py:172-214) for one
category, over the persisted snapshot for that category (`none` when no
snapshot file exists) and the fetched API data (`none` when
`fetch_api_data` returned the empty dict after a request error — the
`if not api_data:` test at line 178).  Returns the result dictionary
and the snapshot store after the check: the baseline is saved on a
first check, a new snapshot is saved only when changes were detected,
and an error leaves the store untouched. -/
def checkCategory (store : Option Snapshot) (apiData : Option Canon.Json)
    (category now : String) : CheckResult × Option Snapshot :=
  match apiData with
  | none =>
    ({ category := category, status := "error", error := some "Failed to fetch API data",
       message := none, guidelines_count := none, links_count := none,
       has_changes := false, changes := none }, store)
  | some data =>
    let current := extractInfo data category now
    match store with
    | none =>
      ({ category := category, status := "first_check", error := none,
         message := some "First check - baseline saved",
         guidelines_count := some current.guidelines_found.length,
         links_count := some current.links_found.length,
         has_changes := false, changes := none }, some current)
    | some prev =>
      let ch := compareSnapshots prev current
      ({ category := category, status := "checked", error := none, message := none,
         guidelines_count := none, links_count := none,
         has_changes := ch.has_changes, changes := some ch },
       if ch.has_changes then some current else store)

end ICH

namespace EudraLex

/-- One entry of the `pdf_links` list built by `extract_documents`
(eudralex_monitor.py:73-84) from the page's `<a href>` elements whose
href contains ".pdf".  The source dict also carries a third key,
`"hash": md5(href)[:8]`, a value determined by `url` alone; it is
omitted here — it is never read by any comparison, and in the
serialization it only adds url-determined bytes between the same
neighbours, so it does not affect whether two serializations are
equal. -/
structure PdfLink where
  title : String
  url : String
deriving DecidableEq

/-- Serialization of one pdf-link dict by
`json.dumps(..., sort_keys=True)`: the keys `"title"`, `"url"` are
emitted in sorted order with the default `", "` / `": "` separators. -/
def pdfLinkDump (p : PdfLink) : String :=
  "\x7b\"title\": \"" ++ Canon.escapeString p.title ++ "\", \"url\": \"" ++
    Canon.escapeString p.url ++ "\"\x7d"

/-- Serialization of the `pdf_links` list: `json.dumps` keeps JSON
arrays in their given order — `sort_keys=True` sorts only object
keys. -/
def dumpsPdfLinks (ps : List PdfLink) : String :=
  "[" ++ String.intercalate ", " (ps.map pdfLinkDump) ++ "]"

/-- The snapshot dictionary built by `extract_documents`
(eudralex_monitor.py:60-120).  The `parts`/`annexes` section maps are
omitted: they are neither hashed nor compared. -/
structure Snapshot where
  timestamp : String
  all_pdfs : List PdfLink
  content_hash : String
  pdf_count : Nat
deriving DecidableEq

/-- Embedding of `extract_documents` (eudralex_monitor.py:60-120) given
the pdf-link list in page (DOM) order: the content hash is SHA-256 of
`json.dumps(pdf_links, sort_keys=True)` — a serialization of the list
in its extraction order (eudralex_monitor.py:116-117). -/
def extractDocuments (pdfLinks : List PdfLink) (now : String) : Snapshot :=
  { timestamp := now
    all_pdfs := pdfLinks
    content_hash := sha256hex (dumpsPdfLinks pdfLinks)
    pdf_count := pdfLinks.length }

/-- The change dictionary built by `compare_snapshots`
(eudralex_monitor.py:137-189). -/
structure Changes where
  has_changes : Bool
  old_timestamp : String
  new_timestamp : String
  new_pdfs : List PdfLink
  removed_pdfs : List PdfLink
  pdf_count_change : Int
  summary : String
deriving DecidableEq

/-- Embedding of `compare_snapshots(old, new)` (eudralex_monitor.py:
137-189): equal `content_hash` short-circuits to the no-change record;
otherwise PDFs are diffed by their `url` key alone — `added_urls` /
`removed_urls` are set differences of the url sets, and the reported
entries are the list elements whose url lies in those differences. -/
def compareSnapshots (old new : Snapshot) : Changes :=
  if old.content_hash = new.content_hash then
    { has_changes := false, old_timestamp := old.timestamp, new_timestamp := new.timestamp,
      new_pdfs := [], removed_pdfs := [], pdf_count_change := 0,
      summary := "No changes detected" }
  else
    let oldUrls := (old.all_pdfs.map PdfLink.url).toFinset
    let newUrls := (new.all_pdfs.map PdfLink.url).toFinset
    let addedUrls := newUrls \ oldUrls
    let removedUrls := oldUrls \ newUrls
    let newPdfs := new.all_pdfs.filter (fun p => decide (p.url ∈ addedUrls))
    let removedPdfs := old.all_pdfs.filter (fun p => decide (p.url ∈ removedUrls))
    let countChange : Int := (new.pdf_count : Int) - (old.pdf_count : Int)
    let parts :=
      (if newPdfs ≠ [] then [toString newPdfs.length ++ " new PDF(s)"] else []) ++
      (if removedPdfs ≠ [] then [toString removedPdfs.length ++ " removed PDF(s)"] else []) ++
      (if countChange ≠ 0 then
        ["Total PDFs: " ++ toString old.pdf_count ++ " → " ++ toString new.pdf_count] else [])
    { has_changes := true, old_timestamp := old.timestamp, new_timestamp := new.timestamp,
      new_pdfs := newPdfs, removed_pdfs := removedPdfs, pdf_count_change := countChange,
      summary := if parts = [] then "Content modified" else String.intercalate ", " parts }

end EudraLex

namespace HtmlMonitor

/-- One extracted `<a href>` element as stored in a page snapshot
(html_change_monitor.py:83-92): its visible text and its href. -/
structure PageLink where
  text : String
  href : String
deriving DecidableEq

/-- The page snapshot persisted by `save_snapshot`
(html_change_monitor.py:198-216): the fields `compare_content`
reads. -/
structure PageContent where
  url : String
  timestamp : String
  text_content : String
  links : List PageLink
  content_hash : String
deriving DecidableEq

/-- Longest common subsequence of two line lists — the alignment
underlying `difflib.unified_diff`.  The first argument is recursion
fuel, at least the sum of the two lengths. -/
def lcsLines : Nat → List String → List String → List String
  | 0, _, _ => []
  | _, [], _ => []
  | _, _, [] => []
  | fuel + 1, a :: as, b :: bs =>
    if a = b then a :: lcsLines fuel as bs
    else
      let l1 := lcsLines fuel as (b :: bs)
      let l2 := lcsLines fuel (a :: as) bs
      if l2.length ≤ l1.length then l1 else l2

/-- LCS-based line diff returning (removed lines, added lines) — the
`-`/`+` lines of `difflib.unified_diff(old_text, new_text)`
(html_change_monitor.py:259-262).  The first argument is recursion
fuel, at least the sum of the two lengths. -/
def lineDiff : Nat → List String → List String → List String × List String
  | 0, as, bs => (as, bs)
  | _, [], bs => ([], bs)
  | _, a :: as, [] => (a :: as, [])
  | fuel + 1, a :: as, b :: bs =>
    if a = b then lineDiff fuel as bs
    else if (lcsLines ((a :: as).length + bs.length) (a :: as) bs).length ≤
            (lcsLines (as.length + (b :: bs).length) as (b :: bs)).length then
      let r := lineDiff fuel as (b :: bs)
      (a :: r.1, r.2)
    else
      let r := lineDiff fuel (a :: as) bs
      (r.1, b :: r.2)

/-- The `text_changes` dict of the diff branch
(html_change_monitor.py:264-267): added and removed lines, each
truncated to 20 entries. -/
structure TextChanges where
  added : List String
  removed : List String
deriving DecidableEq

/-- The `link_changes` dict (html_change_monitor.py:244): links are
keyed by the `(text, href)` pair; `modified` is initialized empty and
never populated. -/
structure LinkChanges where
  added : Finset (String × String)
  removed : Finset (String × String)
  modified : List (String × String)
deriving DecidableEq

/-- The change dictionary built by `compare_content`
(html_change_monitor.py:228-292).  `text_changes` is initialized to the
empty list and replaced by a dict only in the diff branch, modelled as
an `Option`. -/
structure ContentChanges where
  has_changes : Bool
  old_timestamp : String
  new_timestamp : String
  text_changes : Option TextChanges
  link_changes : LinkChanges
  summary : String
deriving DecidableEq

/-- Embedding of `compare_content(old_content, new_content)`
(html_change_monitor.py:228-292): equal `content_hash` short-circuits
to the initialized no-change record; otherwise the text is diffed line
by line (`.split("\n")`) and the link sets — sets of `(text, href)`
pairs — are diffed, and the summary concatenates the non-empty
categories. -/
def compareContent (old new : PageContent) : ContentChanges :=
  if old.content_hash = new.content_hash then
    { has_changes := false, old_timestamp := old.timestamp, new_timestamp := new.timestamp,
      text_changes := none, link_changes := { added := ∅, removed := ∅, modified := [] },
      summary := "No changes detected." }
  else
    let oldLines := old.text_content.splitOn "\n"
    let newLines := new.text_content.splitOn "\n"
    let d := lineDiff (oldLines.length + newLines.length) oldLines newLines
    let removedLines := d.1
    let addedLines := d.2
    let oldPairs := (old.links.map (fun l => (l.text, l.href))).toFinset
    let newPairs := (new.links.map (fun l => (l.text, l.href))).toFinset
    let addedLinks := newPairs \ oldPairs
    let removedLinks := oldPairs \ newPairs
    let parts :=
      (if addedLines ≠ [] then [toString addedLines.length ++ " lines added"] else []) ++
      (if removedLines ≠ [] then [toString removedLines.length ++ " lines removed"] else []) ++
      (if addedLinks ≠ ∅ then [toString addedLinks.card ++ " links added"] else []) ++
      (if removedLinks ≠ ∅ then [toString removedLinks.card ++ " links removed"] else [])
    { has_changes := true, old_timestamp := old.timestamp, new_timestamp := new.timestamp,
      text_changes := some { added := addedLines.take 20, removed := removedLines.take 20 },
      link_changes := { added := addedLinks, removed := removedLinks, modified := [] },
      summary := if parts = [] then "Content modified" else String.intercalate ", " parts }

end HtmlMonitor

namespace FileWrite

/-- The file contents observable if the process stops at any point
during the snapshot writes of this repository, which all have the shape
`with open(path, "w") as f: json.dump(data, f)` (ich_monitor.py:
107-109, html_change_monitor.py:213-214,
pharmaceutical_online_scraper.py:128-129): `open(path, "w")` first
truncates the destination file in place, then the serialized JSON is
streamed into it, so the possible states are every prefix of the new
serialization — including the empty file and strict prefixes, in which
the previous snapshot is already gone and the new one incomplete. -/
def directWriteContents (newContent : String) : List String :=
  (List.range (newContent.length + 1)).map (fun k => newContent.take k)

/-- Modelled from the spec: the atomic write-to-temp-then-rename that
§4.2 REQUIRES for `Save` (no implementation of it exists in the
sources).  The serialized JSON is first streamed into a temporary file
and the destination is replaced by a single atomic rename, so the
destination file's observable contents are only the old snapshot or
the complete new one. -/
def atomicReplaceContents (oldContent newContent : String) : List String :=
  [oldContent, newContent]

end FileWrite

/-
Theorems.  First the sanity checks tying the hashing pipeline to its
reference behaviour, then shared helper lemmas, then one theorem per
specification claim (with a witness where the theorem has hypotheses).
-/

/-- Sanity check of the SHA-256 embedding against the FIPS 180 test
vector for "abc". -/
theorem sha256hex_abc :
    sha256hex "abc" = "ba7816bf8f01cfea414140de5dae2223b00361a396177a9cb410ff61f20015ad" := by
  decide

/-- Sanity check of the serialize-then-hash pipeline against CPython:
`hashlib.sha256(json.dumps([{"title": "Annex 1", "url":
"https://ec.europa.eu/a1.pdf"}, {"title": "Annex 11", "url":
"https://ec.europa.eu/a11.pdf"}], sort_keys=True).encode()).hexdigest()`
evaluates to exactly this digest. -/
theorem sha256hex_pdfLinks_vector :
    sha256hex (EudraLex.dumpsPdfLinks
      [{ title := "Annex 1", url := "https://ec.europa.eu/a1.pdf" },
       { title := "Annex 11", url := "https://ec.europa.eu/a11.pdf" }])
      = "0225cce06347a1b318aab956ed2a13ad8113963da8301ab0495fb51fcaff9723" := by
  decide

namespace PharmaScraper

/-- Every branch of `fetch_news` persists the union of the previous
seen set and the current scrape's link set (on a first run the previous
set is empty, so the union is the current set that is saved alone). -/
theorem fetchNews_savedFile_links (p : Finset String) (c : List String)
    (f : String → ParseOutcome) (t : Nat) :
    (fetchNews p c f t).savedFile.links = p ∪ c.toFinset := by
  unfold fetchNews saveSnapshot
  by_cases h1 : p.card = 0
  · have hp : p = ∅ := Finset.card_eq_zero.mp h1
    subst hp
    simp
  · have hp : ¬ p = ∅ := fun h => h1 (by simp [h])
    by_cases h2 : c.toFinset \ p = ∅ <;>
      simp [h1, h2, hp, Finset.union_comm]

/-- Every branch of `fetch_news` computes
`new_links = current_links - previous_links`. -/
theorem fetchNews_newLinks (p : Finset String) (c : List String)
    (f : String → ParseOutcome) (t : Nat) :
    (fetchNews p c f t).newLinks = c.toFinset \ p := by
  unfold fetchNews
  split_ifs <;> rfl

/-- The first-run flag of `fetch_news` is `len(previous_links) == 0`. -/
theorem fetchNews_isFirstRun (p : Finset String) (c : List String)
    (f : String → ParseOutcome) (t : Nat) :
    (fetchNews p c f t).isFirstRun = true ↔ p = ∅ := by
  unfold fetchNews
  split_ifs with h1 h2 <;>
    simp_all [Finset.card_eq_zero]

/-- Every article returned by `fetch_news` comes from the computed new
links: its link is among the current scrape's links and not among the
previously seen ones. -/
theorem fetchNews_returned_links (p : Finset String) (c : List String)
    (f : String → ParseOutcome) (t : Nat) (a : NewsArticle)
    (ha : a ∈ (fetchNews p c f t).returned) :
    a.link ∈ c.toFinset \ p := by
  unfold fetchNews at ha
  split_ifs at ha with h1 h2
  · simp at ha
  · simp at ha
  · unfold runParse at ha
    rcases List.mem_filterMap.mp ha with ⟨l, hl, hparse⟩
    rcases List.mem_filter.mp hl with ⟨hmem, hpred⟩
    have hlc : l ∈ c.toFinset := List.mem_toFinset.mpr (List.mem_dedup.mp hmem)
    have hlp : l ∉ p := of_decide_eq_true hpred
    have hlink : a.link = l := by
      cases hpo : f l <;> rw [hpo] at hparse <;> simp at hparse
      rw [← hparse]
    rw [hlink]
    exact Finset.mem_sdiff.mpr ⟨hlc, hlp⟩

/-- The seen set loaded at the start of a later run contains everything
that was in the persisted set when the intervening runs began. -/
theorem subset_foldState (s : Finset String) (runs : List RunInput) :
    s ⊆ foldState s runs := by
  induction runs generalizing s with
  | nil => simp [foldState]
  | cons r rs ih =>
    have hstep : foldState s (r :: rs) =
        foldState (fetchNews s r.current r.parse r.now).savedFile.links rs := by
      simp [foldState]
    rw [hstep, fetchNews_savedFile_links]
    exact subset_trans Finset.subset_union_left (ih _)

end PharmaScraper

/-- C1: Cumulative monotonicity.  For any sequence of `fetch_news` runs
with arbitrary (possibly overlapping or shrinking) current link
listings, the set persisted by `_save_snapshot` after a run is the
union of the previously persisted set and the current scrape's ids
(never the current ids alone), so its size never decreases, and an id
that has appeared in the computed `new_links` of one run is absent from
the `new_links` of every later run. -/
theorem cumulative_merge_monotone
    (s0 : Finset String) (past : List PharmaScraper.RunInput)
    (r : PharmaScraper.RunInput) (mid : List PharmaScraper.RunInput)
    (r2 : PharmaScraper.RunInput) (id : String)
    (h : id ∈ (PharmaScraper.fetchNews (PharmaScraper.foldState s0 past)
                r.current r.parse r.now).newLinks) :
    (PharmaScraper.fetchNews (PharmaScraper.foldState s0 past)
        r.current r.parse r.now).savedFile.links =
      PharmaScraper.foldState s0 past ∪ r.current.toFinset ∧
    (PharmaScraper.foldState s0 past).card ≤
      ((PharmaScraper.fetchNews (PharmaScraper.foldState s0 past)
          r.current r.parse r.now).savedFile.links).card ∧
    id ∉ (PharmaScraper.fetchNews
            (PharmaScraper.foldState
              ((PharmaScraper.fetchNews (PharmaScraper.foldState s0 past)
                  r.current r.parse r.now).savedFile.links) mid)
            r2.current r2.parse r2.now).newLinks := by
  set s1 := PharmaScraper.foldState s0 past with hs1
  have hsaved := PharmaScraper.fetchNews_savedFile_links s1 r.current r.parse r.now
  refine ⟨hsaved, ?_, ?_⟩
  · rw [hsaved]
    exact Finset.card_le_card Finset.subset_union_left
  · rw [PharmaScraper.fetchNews_newLinks] at h ⊢
    have hidc : id ∈ r.current.toFinset := (Finset.mem_sdiff.mp h).1
    have hid1 : id ∈ (PharmaScraper.fetchNews s1 r.current r.parse r.now).savedFile.links := by
      rw [hsaved]
      exact Finset.mem_union_right _ hidc
    have hid2 := PharmaScraper.subset_foldState
      ((PharmaScraper.fetchNews s1 r.current r.parse r.now).savedFile.links) mid hid1
    intro hcontra
    exact (Finset.mem_sdiff.mp hcontra).2 hid2

/-- Witness for C1 at the spec's §8 example scenario: after a baseline
run on \x7b x1, x2 \x7d, the id x3 is new in a run on \x7b x2, x3 \x7d
and never new again — in particular not in a later run on
\x7b x1, x3 \x7d even though x3 reappears there. -/
theorem cumulative_merge_monotone_witness :
    "x3" ∈ (PharmaScraper.fetchNews
        (PharmaScraper.foldState ∅
          [{ current := ["x1", "x2"], parse := fun _ => PharmaScraper.ParseOutcome.rejected, now := 0 }])
        ["x2", "x3"] (fun _ => PharmaScraper.ParseOutcome.rejected) 1).newLinks ∧
    ((PharmaScraper.fetchNews
        (PharmaScraper.foldState ∅
          [{ current := ["x1", "x2"], parse := fun _ => PharmaScraper.ParseOutcome.rejected, now := 0 }])
        ["x2", "x3"] (fun _ => PharmaScraper.ParseOutcome.rejected) 1).savedFile.links =
      PharmaScraper.foldState ∅
          [{ current := ["x1", "x2"], parse := fun _ => PharmaScraper.ParseOutcome.rejected, now := 0 }] ∪
        (["x2", "x3"] : List String).toFinset ∧
    (PharmaScraper.foldState ∅
        [{ current := ["x1", "x2"], parse := fun _ => PharmaScraper.ParseOutcome.rejected, now := 0 }]).card ≤
      ((PharmaScraper.fetchNews
          (PharmaScraper.foldState ∅
            [{ current := ["x1", "x2"], parse := fun _ => PharmaScraper.ParseOutcome.rejected, now := 0 }])
          ["x2", "x3"] (fun _ => PharmaScraper.ParseOutcome.rejected) 1).savedFile.links).card ∧
    "x3" ∉ (PharmaScraper.fetchNews
              (PharmaScraper.foldState
                ((PharmaScraper.fetchNews
                    (PharmaScraper.foldState ∅
                      [{ current := ["x1", "x2"], parse := fun _ => PharmaScraper.ParseOutcome.rejected, now := 0 }])
                    ["x2", "x3"] (fun _ => PharmaScraper.ParseOutcome.rejected) 1).savedFile.links) [])
              ["x1", "x3"] (fun _ => PharmaScraper.ParseOutcome.rejected) 2).newLinks) :=
  ⟨by decide,
   cumulative_merge_monotone ∅
     [{ current := ["x1", "x2"], parse := fun _ => PharmaScraper.ParseOutcome.rejected, now := 0 }]
     { current := ["x2", "x3"], parse := fun _ => PharmaScraper.ParseOutcome.rejected, now := 1 }
     []
     { current := ["x1", "x3"], parse := fun _ => PharmaScraper.ParseOutcome.rejected, now := 2 }
     "x3" (by decide)⟩

/-- C2: Baseline rule.  With no prior persisted snapshot, the first
successful `check_category` returns `has_changes = false` with the
"First check - baseline saved" message regardless of the fetched
content, and persists the extracted snapshot as baseline; a second
check of identical content then also returns `has_changes = false` and
leaves the store unchanged.  For the cumulative tracker, a first
`fetch_news` run (empty previous set) likewise returns no articles. -/
theorem baseline_checks_report_no_changes :
    (∀ (data : Canon.Json) (cat now : String),
        (ICH.checkCategory none (some data) cat now).1.has_changes = false ∧
        (ICH.checkCategory none (some data) cat now).1.status = "first_check" ∧
        (ICH.checkCategory none (some data) cat now).1.message =
          some "First check - baseline saved" ∧
        (ICH.checkCategory none (some data) cat now).2 =
          some (ICH.extractInfo data cat now)) ∧
    (∀ (data : Canon.Json) (cat t1 t2 : String),
        (ICH.checkCategory (ICH.checkCategory none (some data) cat t1).2
            (some data) cat t2).1.has_changes = false ∧
        (ICH.checkCategory (ICH.checkCategory none (some data) cat t1).2
            (some data) cat t2).2 = (ICH.checkCategory none (some data) cat t1).2) ∧
    (∀ (c : List String) (f : String → PharmaScraper.ParseOutcome) (t : Nat),
        (PharmaScraper.fetchNews ∅ c f t).returned = [] ∧
        (PharmaScraper.fetchNews ∅ c f t).isFirstRun = true) := by
  refine ⟨fun data cat now => ⟨rfl, rfl, rfl, rfl⟩, fun data cat t1 t2 => ?_, fun c f t => ?_⟩
  · have hcomp : ICH.compareSnapshots (ICH.extractInfo data cat t1)
        (ICH.extractInfo data cat t2) =
        { has_changes := false,
          old_timestamp := (ICH.extractInfo data cat t1).timestamp,
          new_timestamp := (ICH.extractInfo data cat t2).timestamp,
          new_links := ∅, removed_links := ∅,
          new_guidelines := none, removed_guidelines := none,
          summary := "No changes detected" } := by
      unfold ICH.compareSnapshots
      rw [if_pos (show (ICH.extractInfo data cat t1).content_hash =
        (ICH.extractInfo data cat t2).content_hash from rfl)]
    have hstore : (ICH.checkCategory none (some data) cat t1).2 =
        some (ICH.extractInfo data cat t1) := rfl
    rw [hstore]
    simp only [ICH.checkCategory]
    rw [hcomp]
    simp
  · refine ⟨?_, (PharmaScraper.fetchNews_isFirstRun ∅ c f t).mpr rfl⟩
    unfold PharmaScraper.fetchNews
    rw [if_pos (show (∅ : Finset String).card = 0 by simp)]

/-- C3: the snapshot writes of this repository are not atomic.  All
three `save_snapshot` implementations open the destination file with
`open(path, "w")` and stream `json.dump` into it, so an interruption
part-way leaves a file state — here the truncated empty file — that is
neither the old snapshot nor the new one and that the REQUIRED
write-to-temp-then-rename discipline could never expose. -/
theorem snapshot_save_interruptible :
    ∃ s ∈ FileWrite.directWriteContents
        "\x7b\"updated\": \"t2\", \"count\": 2, \"links\": [\"u1\", \"u2\"]\x7d",
      s ≠ "\x7b\"updated\": \"t1\", \"count\": 1, \"links\": [\"u1\"]\x7d" ∧
      s ≠ "\x7b\"updated\": \"t2\", \"count\": 2, \"links\": [\"u1\", \"u2\"]\x7d" ∧
      s ∉ FileWrite.atomicReplaceContents
          "\x7b\"updated\": \"t1\", \"count\": 1, \"links\": [\"u1\"]\x7d"
          "\x7b\"updated\": \"t2\", \"count\": 2, \"links\": [\"u1\", \"u2\"]\x7d" := by
  decide

/-- C4: Set-diff correctness.  Whenever the whole-content hashes
differ, `compare_snapshots` reports, per facet, exactly the set
differences: added = current minus previous and removed = previous
minus current — for the ICH monitor's links and guidelines facets, and
for the EudraLex monitor's PDF url facet. -/
theorem diff_computes_facet_set_differences
    (o n : ICH.Snapshot) (o2 n2 : EudraLex.Snapshot)
    (h : o.content_hash ≠ n.content_hash) (h2 : o2.content_hash ≠ n2.content_hash) :
    (ICH.compareSnapshots o n).has_changes = true ∧
    (ICH.compareSnapshots o n).new_links =
      n.links_found.toFinset \ o.links_found.toFinset ∧
    (ICH.compareSnapshots o n).removed_links =
      o.links_found.toFinset \ n.links_found.toFinset ∧
    (ICH.compareSnapshots o n).new_guidelines =
      some (n.guidelines_found.toFinset \ o.guidelines_found.toFinset) ∧
    (ICH.compareSnapshots o n).removed_guidelines =
      some (o.guidelines_found.toFinset \ n.guidelines_found.toFinset) ∧
    (EudraLex.compareSnapshots o2 n2).has_changes = true ∧
    (∀ p : EudraLex.PdfLink,
      p ∈ (EudraLex.compareSnapshots o2 n2).new_pdfs ↔
        p ∈ n2.all_pdfs ∧
          p.url ∈ (n2.all_pdfs.map EudraLex.PdfLink.url).toFinset \
                  (o2.all_pdfs.map EudraLex.PdfLink.url).toFinset) ∧
    (∀ p : EudraLex.PdfLink,
      p ∈ (EudraLex.compareSnapshots o2 n2).removed_pdfs ↔
        p ∈ o2.all_pdfs ∧
          p.url ∈ (o2.all_pdfs.map EudraLex.PdfLink.url).toFinset \
                  (n2.all_pdfs.map EudraLex.PdfLink.url).toFinset) := by
  unfold ICH.compareSnapshots EudraLex.compareSnapshots
  rw [if_neg h, if_neg h2]
  refine ⟨rfl, rfl, rfl, rfl, rfl, rfl, fun p => ?_, fun p => ?_⟩ <;>
    simp [List.mem_filter]

/-- Witness for C4 at the spec's example: previous links \x7b A, B \x7d
and current links \x7b B, C \x7d (with differing hashes) yield added =
\x7b C \x7d, removed = \x7b A \x7d, and a change is reported. -/
theorem diff_computes_facet_set_differences_witness :
    ("h1" : String) ≠ "h2" ∧ ("e1" : String) ≠ "e2" ∧
    ((ICH.compareSnapshots
        { category := "quality", timestamp := "t1", content_hash := "h1",
          guidelines_found := ["Q1"], links_found := ["A", "B"], response_size := 10 }
        { category := "quality", timestamp := "t2", content_hash := "h2",
          guidelines_found := ["Q1"], links_found := ["B", "C"], response_size := 10 }).has_changes = true ∧
    (ICH.compareSnapshots
        { category := "quality", timestamp := "t1", content_hash := "h1",
          guidelines_found := ["Q1"], links_found := ["A", "B"], response_size := 10 }
        { category := "quality", timestamp := "t2", content_hash := "h2",
          guidelines_found := ["Q1"], links_found := ["B", "C"], response_size := 10 }).new_links =
      (["B", "C"] : List String).toFinset \ (["A", "B"] : List String).toFinset ∧
    (ICH.compareSnapshots
        { category := "quality", timestamp := "t1", content_hash := "h1",
          guidelines_found := ["Q1"], links_found := ["A", "B"], response_size := 10 }
        { category := "quality", timestamp := "t2", content_hash := "h2",
          guidelines_found := ["Q1"], links_found := ["B", "C"], response_size := 10 }).removed_links =
      (["A", "B"] : List String).toFinset \ (["B", "C"] : List String).toFinset ∧
    (ICH.compareSnapshots
        { category := "quality", timestamp := "t1", content_hash := "h1",
          guidelines_found := ["Q1"], links_found := ["A", "B"], response_size := 10 }
        { category := "quality", timestamp := "t2", content_hash := "h2",
          guidelines_found := ["Q1"], links_found := ["B", "C"], response_size := 10 }).new_guidelines =
      some ((["Q1"] : List String).toFinset \ (["Q1"] : List String).toFinset) ∧
    (ICH.compareSnapshots
        { category := "quality", timestamp := "t1", content_hash := "h1",
          guidelines_found := ["Q1"], links_found := ["A", "B"], response_size := 10 }
        { category := "quality", timestamp := "t2", content_hash := "h2",
          guidelines_found := ["Q1"], links_found := ["B", "C"], response_size := 10 }).removed_guidelines =
      some ((["Q1"] : List String).toFinset \ (["Q1"] : List String).toFinset) ∧
    (EudraLex.compareSnapshots
        { timestamp := "t1", all_pdfs := [{ title := "a", url := "A" }, { title := "b", url := "B" }],
          content_hash := "e1", pdf_count := 2 }
        { timestamp := "t2", all_pdfs := [{ title := "b", url := "B" }, { title := "c", url := "C" }],
          content_hash := "e2", pdf_count := 2 }).has_changes = true ∧
    (∀ p : EudraLex.PdfLink,
      p ∈ (EudraLex.compareSnapshots
        { timestamp := "t1", all_pdfs := [{ title := "a", url := "A" }, { title := "b", url := "B" }],
          content_hash := "e1", pdf_count := 2 }
        { timestamp := "t2", all_pdfs := [{ title := "b", url := "B" }, { title := "c", url := "C" }],
          content_hash := "e2", pdf_count := 2 }).new_pdfs ↔
        p ∈ [({ title := "b", url := "B" } : EudraLex.PdfLink), { title := "c", url := "C" }] ∧
          p.url ∈ (([{ title := "b", url := "B" }, { title := "c", url := "C" }] :
                List EudraLex.PdfLink).map EudraLex.PdfLink.url).toFinset \
              (([{ title := "a", url := "A" }, { title := "b", url := "B" }] :
                List EudraLex.PdfLink).map EudraLex.PdfLink.url).toFinset) ∧
    (∀ p : EudraLex.PdfLink,
      p ∈ (EudraLex.compareSnapshots
        { timestamp := "t1", all_pdfs := [{ title := "a", url := "A" }, { title := "b", url := "B" }],
          content_hash := "e1", pdf_count := 2 }
        { timestamp := "t2", all_pdfs := [{ title := "b", url := "B" }, { title := "c", url := "C" }],
          content_hash := "e2", pdf_count := 2 }).removed_pdfs ↔
        p ∈ [({ title := "a", url := "A" } : EudraLex.PdfLink), { title := "b", url := "B" }] ∧
          p.url ∈ (([{ title := "a", url := "A" }, { title := "b", url := "B" }] :
                List EudraLex.PdfLink).map EudraLex.PdfLink.url).toFinset \
              (([{ title := "b", url := "B" }, { title := "c", url := "C" }] :
                List EudraLex.PdfLink).map EudraLex.PdfLink.url).toFinset)) ∧
    (["B", "C"] : List String).toFinset \ (["A", "B"] : List String).toFinset = {"C"} ∧
    (["A", "B"] : List String).toFinset \ (["B", "C"] : List String).toFinset = {"A"} :=
  ⟨by decide, by decide,
   diff_computes_facet_set_differences
     { category := "quality", timestamp := "t1", content_hash := "h1",
       guidelines_found := ["Q1"], links_found := ["A", "B"], response_size := 10 }
     { category := "quality", timestamp := "t2", content_hash := "h2",
       guidelines_found := ["Q1"], links_found := ["B", "C"], response_size := 10 }
     { timestamp := "t1", all_pdfs := [{ title := "a", url := "A" }, { title := "b", url := "B" }],
       content_hash := "e1", pdf_count := 2 }
     { timestamp := "t2", all_pdfs := [{ title := "b", url := "B" }, { title := "c", url := "C" }],
       content_hash := "e2", pdf_count := 2 }
     (by decide) (by decide),
   by decide, by decide⟩

/-- C5: No-op short circuit.  Equal whole-content hashes are
authoritative: `compare_snapshots` / `compare_content` return the
initialized no-change record — `has_changes = false`, the
"no changes detected" summary, empty diff fields, guideline keys not
even added — without computing any set or line diffs, whatever the
facet contents. -/
theorem equal_hash_short_circuits
    (o n : ICH.Snapshot) (oc nc : HtmlMonitor.PageContent)
    (h : o.content_hash = n.content_hash) (h2 : oc.content_hash = nc.content_hash) :
    ICH.compareSnapshots o n =
      { has_changes := false, old_timestamp := o.timestamp, new_timestamp := n.timestamp,
        new_links := ∅, removed_links := ∅, new_guidelines := none,
        removed_guidelines := none, summary := "No changes detected" } ∧
    HtmlMonitor.compareContent oc nc =
      { has_changes := false, old_timestamp := oc.timestamp, new_timestamp := nc.timestamp,
        text_changes := none,
        link_changes := { added := ∅, removed := ∅, modified := [] },
        summary := "No changes detected." } := by
  unfold ICH.compareSnapshots HtmlMonitor.compareContent
  rw [if_pos h, if_pos h2]
  exact ⟨rfl, rfl⟩

/-- Witness for C5: two ICH snapshots and two page snapshots with equal
hashes but different facet contents (different link sets, guidelines
and text) still produce the no-change records. -/
theorem equal_hash_short_circuits_witness :
    ("h" : String) = "h" ∧ ("g" : String) = "g" ∧
    (ICH.compareSnapshots
        { category := "quality", timestamp := "t1", content_hash := "h",
          guidelines_found := ["Q1"], links_found := ["https://a.pdf"], response_size := 10 }
        { category := "quality", timestamp := "t2", content_hash := "h",
          guidelines_found := ["Q2"], links_found := ["https://b.pdf"], response_size := 99 } =
      { has_changes := false, old_timestamp := "t1", new_timestamp := "t2",
        new_links := ∅, removed_links := ∅, new_guidelines := none,
        removed_guidelines := none, summary := "No changes detected" } ∧
    HtmlMonitor.compareContent
        { url := "https://x", timestamp := "t1", text_content := "alpha",
          links := [{ text := "l1", href := "https://x/1" }], content_hash := "g" }
        { url := "https://x", timestamp := "t2", text_content := "beta",
          links := [{ text := "l2", href := "https://x/2" }], content_hash := "g" } =
      { has_changes := false, old_timestamp := "t1", new_timestamp := "t2",
        text_changes := none,
        link_changes := { added := ∅, removed := ∅, modified := [] },
        summary := "No changes detected." }) ∧
    (["https://a.pdf"] : List String).toFinset ≠ (["https://b.pdf"] : List String).toFinset :=
  ⟨rfl, rfl,
   equal_hash_short_circuits
     { category := "quality", timestamp := "t1", content_hash := "h",
       guidelines_found := ["Q1"], links_found := ["https://a.pdf"], response_size := 10 }
     { category := "quality", timestamp := "t2", content_hash := "h",
       guidelines_found := ["Q2"], links_found := ["https://b.pdf"], response_size := 99 }
     { url := "https://x", timestamp := "t1", text_content := "alpha",
       links := [{ text := "l1", href := "https://x/1" }], content_hash := "g" }
     { url := "https://x", timestamp := "t2", text_content := "beta",
       links := [{ text := "l2", href := "https://x/2" }], content_hash := "g" }
     rfl rfl,
   by decide⟩

/-- C6: the fingerprint is not order-independent.  `extract_documents`
hashes `json.dumps(pdf_links, sort_keys=True)`, a serialization of the
pdf-link list in DOM order, so the same two links extracted in the
opposite order — identical url facet set — produce a different
whole-content hash, and `compare_snapshots` on the two fingerprints
reports a change ("Content modified") with no added or removed PDF:
reordering alone produces a spurious diff. -/
theorem fingerprint_depends_on_extraction_order :
    (EudraLex.extractDocuments
        [{ title := "Annex 1", url := "https://ec.europa.eu/a1.pdf" },
         { title := "Annex 11", url := "https://ec.europa.eu/a11.pdf" }] "t").content_hash ≠
      (EudraLex.extractDocuments
        [{ title := "Annex 11", url := "https://ec.europa.eu/a11.pdf" },
         { title := "Annex 1", url := "https://ec.europa.eu/a1.pdf" }] "t").content_hash ∧
    ((EudraLex.extractDocuments
        [{ title := "Annex 1", url := "https://ec.europa.eu/a1.pdf" },
         { title := "Annex 11", url := "https://ec.europa.eu/a11.pdf" }] "t").all_pdfs.map
        EudraLex.PdfLink.url).toFinset =
      ((EudraLex.extractDocuments
        [{ title := "Annex 11", url := "https://ec.europa.eu/a11.pdf" },
         { title := "Annex 1", url := "https://ec.europa.eu/a1.pdf" }] "t").all_pdfs.map
        EudraLex.PdfLink.url).toFinset ∧
    EudraLex.compareSnapshots
        (EudraLex.extractDocuments
          [{ title := "Annex 1", url := "https://ec.europa.eu/a1.pdf" },
           { title := "Annex 11", url := "https://ec.europa.eu/a11.pdf" }] "t1")
        (EudraLex.extractDocuments
          [{ title := "Annex 11", url := "https://ec.europa.eu/a11.pdf" },
           { title := "Annex 1", url := "https://ec.europa.eu/a1.pdf" }] "t2") =
      { has_changes := true, old_timestamp := "t1", new_timestamp := "t2",
        new_pdfs := [], removed_pdfs := [], pdf_count_change := 0,
        summary := "Content modified" } := by
  refine ⟨by decide, by decide, by decide⟩

/-- C7: a run of `fetch_news` in which every hub page fetch fails still
calls `_save_snapshot`.  `_collect_hub_articles` swallows the errors
and returns an empty listing, which `fetch_news` cannot distinguish
from a quiet day: on the no-new-links path it rewrites the snapshot
file — same links, but a fresh `updated` timestamp — so the cumulative
tracker is marked as updated by a failed cycle. -/
theorem failed_fetch_still_saves :
    PharmaScraper.collectHubArticles
      [PharmaScraper.PageFetch.failed, PharmaScraper.PageFetch.failed] = [] ∧
    (PharmaScraper.fetchNews {"u1"}
        (PharmaScraper.collectHubArticles
          [PharmaScraper.PageFetch.failed, PharmaScraper.PageFetch.failed])
        (fun _ => PharmaScraper.ParseOutcome.rejected) 42).savedFile =
      { updated := 42, count := 1, links := {"u1"} } ∧
    (PharmaScraper.fetchNews {"u1"}
        (PharmaScraper.collectHubArticles
          [PharmaScraper.PageFetch.failed, PharmaScraper.PageFetch.failed])
        (fun _ => PharmaScraper.ParseOutcome.rejected) 42).returned = [] := by
  decide

/-- C8 (refuting the claim as stated): `HTMLChangeMonitor.
compare_content` keys links by the `(text, href)` pair, so a link whose
title changed while its URL stayed the same is reported both as an
added link and as a removed link. -/
theorem changed_title_reported_added_and_removed :
    (HtmlMonitor.compareContent
        { url := "https://x", timestamp := "t1", text_content := "",
          links := [{ text := "Old title", href := "https://x/doc" }], content_hash := "h1" }
        { url := "https://x", timestamp := "t2", text_content := "",
          links := [{ text := "New title", href := "https://x/doc" }], content_hash := "h2" }).link_changes.added =
      {("New title", "https://x/doc")} ∧
    (HtmlMonitor.compareContent
        { url := "https://x", timestamp := "t1", text_content := "",
          links := [{ text := "Old title", href := "https://x/doc" }], content_hash := "h1" }
        { url := "https://x", timestamp := "t2", text_content := "",
          links := [{ text := "New title", href := "https://x/doc" }], content_hash := "h2" }).link_changes.removed =
      {("Old title", "https://x/doc")} ∧
    (HtmlMonitor.compareContent
        { url := "https://x", timestamp := "t1", text_content := "",
          links := [{ text := "Old title", href := "https://x/doc" }], content_hash := "h1" }
        { url := "https://x", timestamp := "t2", text_content := "",
          links := [{ text := "New title", href := "https://x/doc" }], content_hash := "h2" }).has_changes =
      true := by
  decide

/-- C8 (amended): entities are compared by id (URL) alone in
`EudraLexMonitor.compare_snapshots` — with an unchanged url set a
changed title yields no added and no removed PDFs — whereas
`HTMLChangeMonitor.compare_content` diffs links as sets of
`(text, href)` pairs, so there a changed title under the same URL
appears as one added and one removed entry. -/
theorem entities_compared_by_id_in_eudralex
    (o2 n2 : EudraLex.Snapshot) (oc nc : HtmlMonitor.PageContent)
    (h : o2.content_hash ≠ n2.content_hash)
    (hurl : (o2.all_pdfs.map EudraLex.PdfLink.url).toFinset =
            (n2.all_pdfs.map EudraLex.PdfLink.url).toFinset)
    (hh : oc.content_hash ≠ nc.content_hash) :
    (EudraLex.compareSnapshots o2 n2).new_pdfs = [] ∧
    (EudraLex.compareSnapshots o2 n2).removed_pdfs = [] ∧
    (HtmlMonitor.compareContent oc nc).link_changes.added =
      (nc.links.map (fun l => (l.text, l.href))).toFinset \
        (oc.links.map (fun l => (l.text, l.href))).toFinset ∧
    (HtmlMonitor.compareContent oc nc).link_changes.removed =
      (oc.links.map (fun l => (l.text, l.href))).toFinset \
        (nc.links.map (fun l => (l.text, l.href))).toFinset := by
  unfold EudraLex.compareSnapshots HtmlMonitor.compareContent
  rw [if_neg h, if_neg hh]
  refine ⟨?_, ?_, rfl, rfl⟩ <;>
    simp [hurl, List.filter_eq_nil_iff]

/-- Witness for the amended C8: a PDF whose title changed under an
unchanged URL is reported neither as added nor removed by the EudraLex
monitor, while the HTML monitor's pair-keyed link diff is exactly the
pair-set differences. -/
theorem entities_compared_by_id_in_eudralex_witness :
    ("e1" : String) ≠ "e2" ∧
    ((([{ title := "Old title", url := "https://x/doc.pdf" }] :
        List EudraLex.PdfLink).map EudraLex.PdfLink.url).toFinset =
      (([{ title := "New title", url := "https://x/doc.pdf" }] :
        List EudraLex.PdfLink).map EudraLex.PdfLink.url).toFinset) ∧
    ("h1" : String) ≠ "h2" ∧
    ((EudraLex.compareSnapshots
        { timestamp := "t1", all_pdfs := [{ title := "Old title", url := "https://x/doc.pdf" }],
          content_hash := "e1", pdf_count := 1 }
        { timestamp := "t2", all_pdfs := [{ title := "New title", url := "https://x/doc.pdf" }],
          content_hash := "e2", pdf_count := 1 }).new_pdfs = [] ∧
    (EudraLex.compareSnapshots
        { timestamp := "t1", all_pdfs := [{ title := "Old title", url := "https://x/doc.pdf" }],
          content_hash := "e1", pdf_count := 1 }
        { timestamp := "t2", all_pdfs := [{ title := "New title", url := "https://x/doc.pdf" }],
          content_hash := "e2", pdf_count := 1 }).removed_pdfs = [] ∧
    (HtmlMonitor.compareContent
        { url := "https://x", timestamp := "t1", text_content := "",
          links := [{ text := "Old title", href := "https://x/doc" }], content_hash := "h1" }
        { url := "https://x", timestamp := "t2", text_content := "",
          links := [{ text := "New title", href := "https://x/doc" }], content_hash := "h2" }).link_changes.added =
      (([{ text := "New title", href := "https://x/doc" }] :
          List HtmlMonitor.PageLink).map (fun l => (l.text, l.href))).toFinset \
        (([{ text := "Old title", href := "https://x/doc" }] :
          List HtmlMonitor.PageLink).map (fun l => (l.text, l.href))).toFinset ∧
    (HtmlMonitor.compareContent
        { url := "https://x", timestamp := "t1", text_content := "",
          links := [{ text := "Old title", href := "https://x/doc" }], content_hash := "h1" }
        { url := "https://x", timestamp := "t2", text_content := "",
          links := [{ text := "New title", href := "https://x/doc" }], content_hash := "h2" }).link_changes.removed =
      (([{ text := "Old title", href := "https://x/doc" }] :
          List HtmlMonitor.PageLink).map (fun l => (l.text, l.href))).toFinset \
        (([{ text := "New title", href := "https://x/doc" }] :
          List HtmlMonitor.PageLink).map (fun l => (l.text, l.href))).toFinset) :=
  ⟨by decide, by decide, by decide,
   entities_compared_by_id_in_eudralex
     { timestamp := "t1", all_pdfs := [{ title := "Old title", url := "https://x/doc.pdf" }],
       content_hash := "e1", pdf_count := 1 }
     { timestamp := "t2", all_pdfs := [{ title := "New title", url := "https://x/doc.pdf" }],
       content_hash := "e2", pdf_count := 1 }
     { url := "https://x", timestamp := "t1", text_content := "",
       links := [{ text := "Old title", href := "https://x/doc" }], content_hash := "h1" }
     { url := "https://x", timestamp := "t2", text_content := "",
       links := [{ text := "New title", href := "https://x/doc" }], content_hash := "h2" }
     (by decide) (by decide) (by decide)⟩

/-- C9 (refuting the claim as stated): `_load_snapshot` returns the
empty set not only when the snapshot file is absent — an existing but
unparsable file also loads as the empty set, after which `fetch_news`
treats the run as a first run and re-baselines, overwriting the store
with only the current scrape's links. -/
theorem unreadable_snapshot_treated_as_first_run :
    PharmaScraper.loadSnapshot PharmaScraper.StoredFile.unreadable = ∅ ∧
    PharmaScraper.StoredFile.unreadable ≠ PharmaScraper.StoredFile.absent ∧
    (PharmaScraper.fetchNews (PharmaScraper.loadSnapshot PharmaScraper.StoredFile.unreadable)
        ["u9"] (fun _ => PharmaScraper.ParseOutcome.rejected) 7).isFirstRun = true ∧
    (PharmaScraper.fetchNews (PharmaScraper.loadSnapshot PharmaScraper.StoredFile.unreadable)
        ["u9"] (fun _ => PharmaScraper.ParseOutcome.rejected) 7).savedFile =
      { updated := 7, count := 1, links := {"u9"} } := by
  decide

/-- C9 (amended): `_load_snapshot` returns the empty set exactly when
the snapshot file is absent, unreadable/unparsable, or parses without a
non-empty `links` entry; and `fetch_news` treats the run as a first run
(re-baselining) exactly when the loaded set is empty. -/
theorem load_snapshot_empty_conditions
    (f : PharmaScraper.StoredFile) (c : List String)
    (pf : String → PharmaScraper.ParseOutcome) (t : Nat) :
    (PharmaScraper.loadSnapshot f = ∅ ↔
      f = PharmaScraper.StoredFile.absent ∨ f = PharmaScraper.StoredFile.unreadable ∨
        ∃ ls, f = PharmaScraper.StoredFile.stored ls ∧ (ls.getD []).toFinset = ∅) ∧
    ((PharmaScraper.fetchNews (PharmaScraper.loadSnapshot f) c pf t).isFirstRun = true ↔
      PharmaScraper.loadSnapshot f = ∅) := by
  constructor
  · cases f with
    | absent => simp [PharmaScraper.loadSnapshot]
    | unreadable => simp [PharmaScraper.loadSnapshot]
    | stored ls => simp [PharmaScraper.loadSnapshot]
  · rw [PharmaScraper.fetchNews_isFirstRun]

/-- C10: in a non-first `fetch_news` run, every currently listed link
is persisted into the cumulative seen set whatever its parse outcome —
also when `_parse_article` raises or the keyword filter rejects it —
every returned article comes from the run's new links, and a link
listed in this run is returned by no later run. -/
theorem rejected_links_still_marked_seen
    (p : Finset String) (c : List String) (f : String → PharmaScraper.ParseOutcome)
    (t : Nat) (hp : p ≠ ∅) (l : String) (hl : l ∈ c)
    (mid : List PharmaScraper.RunInput) (r2 : PharmaScraper.RunInput) :
    l ∈ (PharmaScraper.fetchNews p c f t).savedFile.links ∧
    (∀ a ∈ (PharmaScraper.fetchNews p c f t).returned, a.link ∈ c.toFinset \ p) ∧
    (∀ a ∈ (PharmaScraper.fetchNews
              (PharmaScraper.foldState
                ((PharmaScraper.fetchNews p c f t).savedFile.links) mid)
              r2.current r2.parse r2.now).returned, a.link ≠ l) := by
  have hsaved := PharmaScraper.fetchNews_savedFile_links p c f t
  have hlsaved : l ∈ (PharmaScraper.fetchNews p c f t).savedFile.links := by
    rw [hsaved]
    exact Finset.mem_union_right _ (List.mem_toFinset.mpr hl)
  refine ⟨hlsaved, fun a ha => PharmaScraper.fetchNews_returned_links p c f t a ha,
    fun a ha => ?_⟩
  have h1 := PharmaScraper.fetchNews_returned_links _ _ _ _ a ha
  have h2 := PharmaScraper.subset_foldState
    ((PharmaScraper.fetchNews p c f t).savedFile.links) mid hlsaved
  intro heq
  exact (Finset.mem_sdiff.mp h1).2 (heq ▸ h2)

/-- Witness for C10: with previous seen set \x7b a \x7d, listing
[a, b], and a parse that raises on every article, the new link b is
persisted although nothing is returned, and a later run listing b again
returns no article for it. -/
theorem rejected_links_still_marked_seen_witness :
    ({"a"} : Finset String) ≠ ∅ ∧ "b" ∈ (["a", "b"] : List String) ∧
    ("b" ∈ (PharmaScraper.fetchNews {"a"} ["a", "b"]
        (fun _ => PharmaScraper.ParseOutcome.errored) 1).savedFile.links ∧
    (∀ a ∈ (PharmaScraper.fetchNews {"a"} ["a", "b"]
        (fun _ => PharmaScraper.ParseOutcome.errored) 1).returned,
      a.link ∈ (["a", "b"] : List String).toFinset \ {"a"}) ∧
    (∀ a ∈ (PharmaScraper.fetchNews
              (PharmaScraper.foldState
                ((PharmaScraper.fetchNews {"a"} ["a", "b"]
                    (fun _ => PharmaScraper.ParseOutcome.errored) 1).savedFile.links) [])
              ["b", "c"] (fun _ => PharmaScraper.ParseOutcome.parsed "T") 9).returned,
      a.link ≠ "b")) :=
  ⟨by decide, by decide,
   rejected_links_still_marked_seen {"a"} ["a", "b"]
     (fun _ => PharmaScraper.ParseOutcome.errored) 1 (by decide) "b" (by decide)
     [] { current := ["b", "c"], parse := fun _ => PharmaScraper.ParseOutcome.parsed "T", now := 9 }⟩
